import Mathlib

/-!
Verification of the Tuteliq `react-native` hook library.

The library wraps each remote SDK call in the same stateful adapter pattern
(`src/hooks.ts`): an `AsyncState` triple `{data, loading, error}` plus an
`execute`/`reset` pair.  A provider component (`src/context.tsx`) constructs
the SDK client once per mounted subtree and exposes it through a context
lookup hook.  Every one of the ~31 hooks in `src/hooks.ts` instantiates the
identical pattern, so the model below is generic in the result type `T` and
the input type `I`; each concrete hook is this model with `remote` bound to
one client method.
-/

namespace Tuteliq

/-- Kinds of error values visible at this library's boundary.  The SDK
re-export surface (`src/index.ts`) names `AuthenticationError`,
`RateLimitError`, `ValidationError`, `NotFoundError`, `ServerError`,
`TimeoutError`, `NetworkError` and the base `TuteliqError`; `generic` stands
for a plain JavaScript `Error` constructed with `new Error(...)`;
`contextMissing` is the distinct programming-error kind the specification's
taxonomy postulates for a missing provider. -/
inductive ErrKind where
  | generic
  | contextMissing
  | tuteliq
  | authentication
  | rateLimit
  | validation
  | notFound
  | server
  | timeout
  | network
  deriving DecidableEq, Repr

/-- A JavaScript error value: its kind (runtime class) and message. -/
structure Err where
  kind : ErrKind
  message : String
  deriving DecidableEq, Repr

/-- A JavaScript thrown value: either an `Error` instance, or any non-`Error`
value represented by its `String(v)` form (the only way the code observes
such a value). -/
inductive Thrown where
  | err (e : Err)
  | nonError (stringForm : String)
  deriving DecidableEq, Repr

/-- The catch-branch normalization in every hook of `src/hooks.ts`:
`const error = err instanceof Error ? err : new Error(String(err))`. -/
def normalizeError : Thrown → Err
  | Thrown.err e => e
  | Thrown.nonError s => { kind := ErrKind.generic, message := s }

/-- `AsyncState<T>` from `src/hooks.ts`: `data: T | null`, `loading: boolean`,
`error: Error | null`. -/
structure AsyncState (T : Type) where
  data : Option T
  loading : Bool
  error : Option Err
  deriving DecidableEq, Repr

/-- The `useState` initializer of every hook:
`{ data: null, loading: false, error: null }`. -/
def initialState (T : Type) : AsyncState T :=
  { data := none, loading := false, error := none }

/-- The outcome a settled remote call delivers: a result, or a thrown value. -/
abbrev Outcome (T : Type) := Except Thrown T

/-- The state written when an awaited remote call settles, read off the two
`setState` calls after the single `await` in each hook's `execute`:
success writes `{ data: result, loading: false, error: null }`; the catch
branch writes `{ data: null, loading: false, error: normalized }`. -/
def settleState {T : Type} : Outcome T → AsyncState T
  | Except.ok result => { data := some result, loading := false, error := none }
  | Except.error v => { data := none, loading := false, error := some (normalizeError v) }

/-- Atomic state-affecting events on one adapter instance.  An `execute(input)`
invocation contributes exactly two events: `start input` (its synchronous
prefix, which runs before the single `await` suspension) and
`settle outcome` (its continuation, which runs when the awaited promise
settles).  `reset` is the hook's `reset()` callback.  Between events the
single-threaded event loop runs nothing else that touches this state. -/
inductive Event (T I : Type) where
  | start (input : I)
  | settle (outcome : Outcome T)
  | reset

/-- One event's effect on the adapter state, read off `src/hooks.ts`
lines 101-119: each branch is a whole-object `setState`, so the written
state never depends on the previous state. -/
def step {T I : Type} (s : AsyncState T) : Event T I → AsyncState T
  | Event.start _ => { data := none, loading := true, error := none }
  | Event.settle o => settleState o
  | Event.reset => { data := none, loading := false, error := none }

/-- The adapter state after a sequence of interleaved events. -/
def run {T I : Type} (s : AsyncState T) (events : List (Event T I)) : AsyncState T :=
  events.foldl step s

/-- A whole non-overlapped `execute(input)` call from `src/hooks.ts`: set the
loading state, invoke `remote` on `input` verbatim, then either store and
return the result, or normalize, store and re-throw the error.  Returns the
final adapter state together with the settled promise value. -/
def execute {T I : Type} (remote : I → Outcome T) (s : AsyncState T) (input : I) :
    AsyncState T × Except Err T :=
  match remote input with
  | Except.ok result =>
      ({ data := some result, loading := false, error := none }, Except.ok result)
  | Except.error v =>
      ({ data := none, loading := false, error := some (normalizeError v) },
        Except.error (normalizeError v))

/-- The `reset` callback of every hook:
`setState({ data: null, loading: false, error: null })`. -/
def reset {T : Type} (s : AsyncState T) : AsyncState T :=
  { data := none, loading := false, error := none }

/-- Provider construction options (`timeout`, `maxRetries`, `retryDelay`),
passed through unvalidated to the SDK client. -/
structure Config where
  timeout : Option Nat
  maxRetries : Option Nat
  retryDelay : Option Nat
  deriving DecidableEq, Repr

/-- The SDK client handle as constructed by the provider:
`new SafeNestClient({ apiKey, ...config })`. -/
structure SafeNestClient where
  apiKey : String
  config : Config
  deriving DecidableEq, Repr

/-- `SafeNestContextValue` from `src/context.tsx`: the client plus a
readiness flag. -/
structure SafeNestContextValue where
  client : SafeNestClient
  isReady : Bool
  deriving DecidableEq, Repr

/-- One render of `SafeNestProvider` acting on its `useRef` cell
(`src/context.tsx` lines 49-57): `if (!clientRef.current) clientRef.current =
new SafeNestClient({ apiKey, ...config })`.  Takes the ref contents before
the render and the current props; returns the ref contents after. -/
def providerRender (clientRef : Option SafeNestClient) (apiKey : String)
    (config : Config) : Option SafeNestClient :=
  match clientRef with
  | none => some { apiKey := apiKey, config := config }
  | some c => some c

/-- The context value the provider publishes (`src/context.tsx` lines 59-65):
`useMemo(() => ({ client: clientRef.current!, isReady: true }), [])`. -/
def contextValue (client : SafeNestClient) : SafeNestContextValue :=
  { client := client, isReady := true }

/-- `useSafeNestClient` from `src/context.tsx` lines 91-99: reads the context;
if absent, throws `new Error('useSafeNestClient must be used within a
SafeNestProvider')`; otherwise returns the context value.  No client method
is invoked on either path. -/
def useSafeNestClient (context : Option SafeNestContextValue) :
    Except Err SafeNestContextValue :=
  match context with
  | none =>
      Except.error
        { kind := ErrKind.generic,
          message := "useSafeNestClient must be used within a SafeNestProvider" }
  | some c => Except.ok c

/-- An input carrying the optional tracking fields (`externalId`, `metadata`)
alongside its operation-specific payload. -/
structure TrackedInput (A : Type) where
  payload : A
  externalId : Option String
  metadata : List (String × String)
  deriving DecidableEq, Repr

/-- A result carrying the echoed tracking fields alongside its
operation-specific payload. -/
structure TrackedResult (B : Type) where
  payload : B
  externalId : Option String
  metadata : List (String × String)
  deriving DecidableEq, Repr

/-- Sample client used to instantiate witness statements. -/
def sampleClient : SafeNestClient :=
  { apiKey := "demo-key",
    config := { timeout := none, maxRetries := none, retryDelay := none } }

/-- A stub remote call that always succeeds with `7`. -/
def constOkRemote : Nat → Outcome Nat :=
  fun _ => Except.ok 7

/-- A stub remote call that always throws the raw primitive `"boom"`. -/
def constThrowRemote : Nat → Outcome Nat :=
  fun _ => Except.error (Thrown.nonError "boom")

/-- A stub remote call that echoes the tracking fields of its input. -/
def unitEchoRemote : TrackedInput Unit → Outcome (TrackedResult Unit) :=
  fun i => Except.ok { payload := (), externalId := i.externalId, metadata := i.metadata }

/-- Sample tracked input for the tracking-field witness. -/
def sampleTrackedInput : TrackedInput Unit :=
  { payload := (), externalId := some "corr-1", metadata := [("k", "v")] }

/-- Sample tracked result, echoing `sampleTrackedInput`'s tracking fields. -/
def sampleTrackedResult : TrackedResult Unit :=
  { payload := (), externalId := some "corr-1", metadata := [("k", "v")] }

/-- C1: for every operation hook and every input, the synchronous prefix of
`execute(input)` (the `start` event, which runs before the single `await`
suspension and hence before the remote call settles) sets the adapter state
to `{data: absent, loading: true, error: absent}`, from any prior state
`s` — including one holding stale data — and a whole `execute` call is
exactly the `start` event followed by the `settle` event of its remote
outcome. -/
theorem execute_sets_loading_synchronously {T I : Type} (s : AsyncState T) (input : I) :
    run s [Event.start input] = { data := none, loading := true, error := none } ∧
    ∀ remote : I → Outcome T,
      (execute remote s input).1 = run s [Event.start input, Event.settle (remote input)] := by
  refine ⟨rfl, ?_⟩
  intro remote
  cases h : remote input <;> simp [execute, run, step, settleState, h]

/-- C2: for every operation hook, when the wrapped remote call resolves
successfully with `result`, `execute` leaves the adapter state equal to
`{data: result, loading: false, error: absent}` and the promise returned by
`execute` resolves with that same `result`. -/
theorem execute_success {T I : Type} (remote : I → Outcome T) (s : AsyncState T)
    (input : I) (result : T) (h : remote input = Except.ok result) :
    (execute remote s input).1 = { data := some result, loading := false, error := none } ∧
    (execute remote s input).2 = Except.ok result := by
  simp [execute, h]

/-- Witness for `execute_success` at the stub remote `constOkRemote`. -/
theorem execute_success_witness :
    constOkRemote 3 = Except.ok 7 ∧
    (execute constOkRemote (initialState Nat) 3).1 =
      { data := some 7, loading := false, error := none } ∧
    (execute constOkRemote (initialState Nat) 3).2 = Except.ok 7 :=
  ⟨rfl, execute_success constOkRemote (initialState Nat) 3 7 rfl⟩

/-- C3: for every operation hook, when the wrapped remote call fails with a
thrown value `v`, `execute` normalizes `v` to the error value
`normalizeError v` (equal to `v` itself when `v` is an `Error` instance,
and a generic error wrapping `v`'s string form otherwise — so never a raw
non-error primitive), leaves state `{data: absent, loading: false,
error: normalizeError v}`, and rejects with exactly that same error value. -/
theorem execute_failure {T I : Type} (remote : I → Outcome T) (s : AsyncState T)
    (input : I) (v : Thrown) (h : remote input = Except.error v) :
    (execute remote s input).1 =
      { data := none, loading := false, error := some (normalizeError v) } ∧
    (execute remote s input).2 = Except.error (normalizeError v) ∧
    (∀ e, v = Thrown.err e → normalizeError v = e) ∧
    (∀ str, v = Thrown.nonError str →
      normalizeError v = { kind := ErrKind.generic, message := str }) := by
  refine ⟨?_, ?_, ?_, ?_⟩
  · simp [execute, h]
  · simp [execute, h]
  · intro e he
    subst he
    rfl
  · intro str hs
    subst hs
    rfl

/-- Witness for `execute_failure` at the stub remote `constThrowRemote`,
which throws the raw primitive string `"boom"`. -/
theorem execute_failure_witness :
    constThrowRemote 3 = Except.error (Thrown.nonError "boom") ∧
    (execute constThrowRemote (initialState Nat) 3).1 =
      { data := none, loading := false,
        error := some { kind := ErrKind.generic, message := "boom" } } ∧
    (execute constThrowRemote (initialState Nat) 3).2 =
      Except.error { kind := ErrKind.generic, message := "boom" } :=
  ⟨rfl,
    (execute_failure constThrowRemote (initialState Nat) 3 (Thrown.nonError "boom") rfl).1,
    (execute_failure constThrowRemote (initialState Nat) 3 (Thrown.nonError "boom") rfl).2.1⟩

/-- C4 counterexample: two overlapping `execute` calls from the initial
state — call 1 starts (input 1), call 2 starts (input 2), call 2's remote
settles first with result 20, call 1's settles last with result 10.  The
first invocation's remote call thus settles after the second's.  The final
state holds call 1's result 10, not the second call's result 20, so the
claim's identification of the winner as "the second call's" is false. -/
theorem overlapping_second_call_wins_false :
    run (initialState Nat)
        [Event.start 1, Event.start 2,
          Event.settle (Except.ok 20), Event.settle (Except.ok 10)] =
      { data := some 10, loading := false, error := none } ∧
    (run (initialState Nat)
        [Event.start 1, Event.start 2,
          Event.settle (Except.ok 20), Event.settle (Except.ok 10)]).data ≠ some 20 :=
  ⟨rfl, by decide⟩

/-- C4 (amended): with two overlapping `execute` invocations where the first
call's remote outcome `o1` settles after the second's outcome `o2`, the final
state is determined solely by the last settlement in time — here the first
call's `o1` — not by invocation order; the superseded second call's write
does land (transiently) and is then overwritten, with no queueing and no
cancellation. -/
theorem overlapping_last_settled_wins {T I : Type} (s : AsyncState T) (i1 i2 : I)
    (o1 o2 : Outcome T) :
    run s [Event.start i1, Event.start i2, Event.settle o2, Event.settle o1] =
      settleState o1 ∧
    run s [Event.start i1, Event.start i2, Event.settle o2] = settleState o2 := by
  exact ⟨rfl, rfl⟩

/-- C5: for every adapter, `reset()` sets the state to
`{data: absent, loading: false, error: absent}` unconditionally from any
prior state, and `reset` is idempotent. -/
theorem reset_unconditional_idempotent {T : Type} (s : AsyncState T) :
    reset s = { data := none, loading := false, error := none } ∧
    reset (reset s) = reset s :=
  ⟨rfl, rfl⟩

/-- C6 counterexample: calling the client-lookup hook with no enclosing
provider fails with the plain generic `Error` of `src/context.tsx` line 95 —
a kind distinct from the `contextMissing` kind the claim requires. -/
theorem missing_provider_error_is_generic :
    useSafeNestClient none =
      Except.error
        { kind := ErrKind.generic,
          message := "useSafeNestClient must be used within a SafeNestProvider" } ∧
    ErrKind.generic ≠ ErrKind.contextMissing :=
  ⟨rfl, by decide⟩

/-- C6 (amended): calling the client-lookup hook without an enclosing
initialized provider always fails, deterministically and with no remote call
attempted (`useSafeNestClient` invokes no client method on any path), and the
failure is a plain generic `Error` with a fixed message — the code defines no
distinct `ContextMissingError` kind. -/
theorem missing_provider_fails_with_generic_error :
    useSafeNestClient none =
      Except.error
        { kind := ErrKind.generic,
          message := "useSafeNestClient must be used within a SafeNestProvider" } :=
  rfl

/-- C7: the provider constructs the client exactly once per mounted subtree
instance: a render with an empty ref constructs it from the current props, a
render with a populated ref is a no-op for construction even under different
`apiKey`/`config` props, and a second render after the first changes
nothing. -/
theorem provider_constructs_client_once (apiKey apiKey2 : String)
    (config config2 : Config) (c : SafeNestClient) :
    providerRender none apiKey config = some { apiKey := apiKey, config := config } ∧
    providerRender (some c) apiKey2 config2 = some c ∧
    providerRender (providerRender none apiKey config) apiKey2 config2 =
      providerRender none apiKey config :=
  ⟨rfl, rfl, rfl⟩

/-- C8: a `reset` issued while an `execute` is in flight takes effect
immediately — the state becomes `{data: absent, loading: false,
error: absent}` — and when the in-flight call later settles with outcome
`o`, its write still overwrites the reset state: reset cancels nothing. -/
theorem reset_does_not_cancel_in_flight {T I : Type} (s : AsyncState T) (input : I)
    (o : Outcome T) :
    run s [Event.start input, Event.reset] =
      { data := none, loading := false, error := none } ∧
    run s [Event.start input, Event.reset, Event.settle o] = settleState o := by
  exact ⟨rfl, rfl⟩

/-- C9: the adapter passes `execute`'s input to the wrapped remote call
unchanged — its behavior depends on the remote function only through its
value at exactly `input` — and, whenever the remote call echoes the tracking
fields (as the remote API specifies), a successful result stored in state
and returned by `execute` carries `externalId` and `metadata` structurally
equal to those supplied on input. -/
theorem tracking_fields_roundtrip {A B : Type}
    (remote : TrackedInput A → Outcome (TrackedResult B))
    (s : AsyncState (TrackedResult B)) (input : TrackedInput A) (r : TrackedResult B)
    (echo : ∀ i ri, remote i = Except.ok ri →
      ri.externalId = i.externalId ∧ ri.metadata = i.metadata)
    (h : remote input = Except.ok r) :
    (∀ remote2 : TrackedInput A → Outcome (TrackedResult B),
      remote2 input = remote input → execute remote2 s input = execute remote s input) ∧
    (execute remote s input).1.data = some r ∧
    (execute remote s input).2 = Except.ok r ∧
    r.externalId = input.externalId ∧ r.metadata = input.metadata := by
  refine ⟨?_, ?_, ?_, ?_, ?_⟩
  · intro remote2 h2
    simp only [execute, h2]
  · simp [execute, h]
  · simp [execute, h]
  · exact (echo input r h).1
  · exact (echo input r h).2

/-- Witness for `tracking_fields_roundtrip` at the echoing stub remote
`unitEchoRemote` and the concrete input `sampleTrackedInput`. -/
theorem tracking_fields_roundtrip_witness :
    unitEchoRemote sampleTrackedInput = Except.ok sampleTrackedResult ∧
    (execute unitEchoRemote (initialState (TrackedResult Unit)) sampleTrackedInput).1.data =
      some sampleTrackedResult ∧
    sampleTrackedResult.externalId = sampleTrackedInput.externalId ∧
    sampleTrackedResult.metadata = sampleTrackedInput.metadata :=
  ⟨rfl,
    (tracking_fields_roundtrip unitEchoRemote (initialState (TrackedResult Unit))
        sampleTrackedInput sampleTrackedResult
        (by
          intro i ri hri
          cases hri
          exact ⟨rfl, rfl⟩)
        rfl).2.1,
    (tracking_fields_roundtrip unitEchoRemote (initialState (TrackedResult Unit))
        sampleTrackedInput sampleTrackedResult
        (by
          intro i ri hri
          cases hri
          exact ⟨rfl, rfl⟩)
        rfl).2.2.2⟩

/-- C10: whenever the client-lookup hook succeeds on a context value
published by the provider, the readiness flag it returns is `true` — the
provider constructs its context value once with `isReady` fixed to `true`. -/
theorem provider_value_always_ready (c : SafeNestClient) (v : SafeNestContextValue)
    (h : useSafeNestClient (some (contextValue c)) = Except.ok v) :
    v.isReady = true := by
  simp only [useSafeNestClient, Except.ok.injEq] at h
  subst h
  rfl

/-- Witness for `provider_value_always_ready` at `sampleClient`. -/
theorem provider_value_always_ready_witness :
    useSafeNestClient (some (contextValue sampleClient)) =
      Except.ok (contextValue sampleClient) ∧
    (contextValue sampleClient).isReady = true :=
  ⟨rfl, provider_value_always_ready sampleClient (contextValue sampleClient) rfl⟩

end Tuteliq
